import Mathlib

set_option linter.unusedVariables false

/-!
Verification of the elrond-go heartbeat liveness tracker
(`heartbeatMessageInfo`) and the ESDT system smart contract (`esdt`).

Times and durations are modelled as `Int` (Go `time.Time` / `time.Duration`
are nanosecond counts; `t.Sub(u)` is integer subtraction).  Each Go method
becomes a pure function from the record state to the new record state.
-/

namespace Heartbeat

/-- State of a `heartbeatMessageInfo` record (one per remote peer). -/
structure HbState where
  maxDurationPeerUnresponsive : Int
  maxInactiveTime : Int
  totalUpTime : Int
  totalDownTime : Int
  timeStamp : Int
  isActive : Bool
  receivedShardID : Nat
  computedShardID : Nat
  versionNumber : String
  nodeDisplayName : String
  isValidator : Bool
  lastUptimeDowntime : Int
  genesisTime : Int
deriving DecidableEq, Repr

/-- Go `maxDuration`: maximum of two durations. -/
def maxDuration (first second : Int) : Int :=
  if first > second then first else second

/-- Go `newHeartbeatMessageInfo`.  The `timer.Now()` read at construction is
passed in as `nowAtConstruction`; the nil-timer check is not representable and
is dropped, the zero-threshold check is kept. -/
def newHeartbeatMessageInfo (maxDurationPeerUnresponsive : Int) (isValidator : Bool)
    (genesisTime : Int) (nowAtConstruction : Int) : Option HbState :=
  if maxDurationPeerUnresponsive = 0 then
    none
  else
    some {
      maxDurationPeerUnresponsive := maxDurationPeerUnresponsive
      maxInactiveTime := 0
      isActive := false
      receivedShardID := 0
      computedShardID := 0
      timeStamp := genesisTime
      lastUptimeDowntime := nowAtConstruction
      totalUpTime := 0
      totalDownTime := 0
      versionNumber := ""
      nodeDisplayName := ""
      isValidator := isValidator
      genesisTime := genesisTime }

/-- Go `computeValidDuration`. -/
def computeValidDuration (crtTime : Int) (h : HbState) : Bool :=
  decide (maxDuration 0 (crtTime - h.timeStamp) ≤ h.maxDurationPeerUnresponsive)

/-- Go `updateMaxInactiveTimeDuration`. -/
def updateMaxInactiveTimeDuration (h : HbState) (currentTime : Int) : HbState :=
  let crtDuration := maxDuration 0 (currentTime - h.timeStamp)
  if h.maxInactiveTime < crtDuration ∧ h.genesisTime - currentTime < 0 then
    { h with maxInactiveTime := crtDuration }
  else
    h

/-- Go `updateUpAndDownTime`. -/
def updateUpAndDownTime (h : HbState) (previousActive : Bool) (crtTime : Int) : HbState :=
  let h1 := if h.lastUptimeDowntime - h.genesisTime < 0 then
              { h with lastUptimeDowntime := h.genesisTime }
            else h
  let lastDuration := maxDuration 0 (crtTime - h1.lastUptimeDowntime)
  let h2 := if previousActive && h1.isActive then
              { h1 with totalUpTime := h1.totalUpTime + lastDuration }
            else
              { h1 with totalDownTime := h1.totalDownTime + lastDuration }
  { h2 with lastUptimeDowntime := crtTime }

/-- Go `updateTimes`. -/
def updateTimes (h : HbState) (crtTime : Int) (previousActive : Bool) : HbState :=
  if crtTime - h.genesisTime < 0 then
    h
  else
    updateUpAndDownTime (updateMaxInactiveTimeDuration h crtTime) previousActive crtTime

/-- Go `updateFields` (body of the message-received path). -/
def updateFields (h : HbState) (crtTime : Int) : HbState :=
  let validDuration := computeValidDuration crtTime h
  let previousActive := h.isActive && validDuration
  let h1 := { h with isActive := true }
  updateTimes h1 crtTime previousActive

/-- Go `computeActive` (body of the periodic `reevaluate` sweep). -/
def computeActive (h : HbState) (crtTime : Int) : HbState :=
  let validDuration := computeValidDuration crtTime h
  let h1 := { h with isActive := h.isActive && validDuration }
  updateTimes h1 crtTime h1.isActive

/-- Go `HeartbeatReceived`.  The `getTimeHandler()` read is passed in as
`crtTime`. -/
def heartbeatReceived (h : HbState) (crtTime : Int) (computedShardID : Nat)
    (receivedShardID : Nat) (version : String) (nodeDisplayName : String) : HbState :=
  let h1 := updateFields h crtTime
  { h1 with
    computedShardID := computedShardID
    receivedShardID := receivedShardID
    timeStamp := crtTime
    versionNumber := version
    nodeDisplayName := nodeDisplayName }

/-- One external call on a peer liveness record: either an inbound heartbeat
message or a periodic reevaluation sweep, tagged with the clock reading the
call observes. -/
inductive HbEvent where
  | heartbeat (crtTime : Int) (computedShardID : Nat) (receivedShardID : Nat)
      (version : String) (displayName : String)
  | reevaluate (crtTime : Int)
deriving DecidableEq, Repr

/-- Clock reading observed by an event. -/
def HbEvent.time : HbEvent → Int
  | .heartbeat t _ _ _ _ => t
  | .reevaluate t => t

/-- Apply one call to a record. -/
def hbStep (h : HbState) (e : HbEvent) : HbState :=
  match e with
  | .heartbeat t cs rs v n => heartbeatReceived h t cs rs v n
  | .reevaluate t => computeActive h t

/-- Apply a sequence of calls to a record, in order. -/
def hbRun (h : HbState) (es : List HbEvent) : HbState :=
  es.foldl hbStep h

/-- Event times are non-decreasing, starting no earlier than `t`. -/
def timesMono (t : Int) : List HbEvent → Bool
  | [] => true
  | e :: es => decide (t ≤ e.time) && timesMono e.time es

/-- Time of the last event, `t` if there is none. -/
def lastTime (t : Int) : List HbEvent → Int
  | [] => t
  | e :: es => lastTime e.time es

/-- Up/down-time accounting invariant: settled time equals the clamped span
from genesis to the last settlement instant. -/
def upDownInv (h : HbState) : Prop :=
  h.totalUpTime + h.totalDownTime = maxDuration 0 (h.lastUptimeDowntime - h.genesisTime)

/-- Concrete record used by the witness of claim C7. -/
def hbW7 : HbState :=
  { maxDurationPeerUnresponsive := 10
    maxInactiveTime := 0
    totalUpTime := 0
    totalDownTime := 0
    timeStamp := 0
    isActive := true
    receivedShardID := 0
    computedShardID := 0
    versionNumber := ""
    nodeDisplayName := ""
    isValidator := false
    lastUptimeDowntime := 0
    genesisTime := 0 }

/-- Concrete record used by the witness of claim C1 (construction at the
genesis instant). -/
def hbW1 : HbState :=
  { maxDurationPeerUnresponsive := 100
    maxInactiveTime := 0
    totalUpTime := 0
    totalDownTime := 0
    timeStamp := 0
    isActive := false
    receivedShardID := 0
    computedShardID := 0
    versionNumber := ""
    nodeDisplayName := ""
    isValidator := false
    lastUptimeDowntime := 0
    genesisTime := 0 }

/-- Concrete call sequence used by the witness of claim C1. -/
def hbW1Events : List HbEvent :=
  [HbEvent.heartbeat 3 0 0 "" "", HbEvent.reevaluate 7]

end Heartbeat


-- ===================================================================
-- Definitions: ESDT system smart contract
-- ===================================================================

namespace Esdt

/-- Byte strings (Go `[]byte`), as lists of byte values. -/
abbrev Bytes := List Nat

/-- ASCII bytes of a string literal. -/
def strBytes (s : String) : Bytes :=
  s.data.map Char.toNat

/-- Go constant `minLengthForTokenName`. -/
def minLengthForTokenName : Nat := 10

/-- Go constant `maxLengthForTokenName`. -/
def maxLengthForTokenName : Nat := 20

/-- Go constant `configKeyPrefix`, the storage key of the config record. -/
def configKeyBytes : Bytes := strBytes "esdtConfig"

/-- Go constant `allIssuedTokens`, the storage key of the token directory. -/
def allIssuedTokensKey : Bytes := strBytes "allIssuedTokens"

/-- Go `core.BuiltInFunctionESDTTransfer`. -/
def builtInFunctionESDTTransfer : String := "ESDTTransfer"

/-- Go `core.BuiltInFunctionESDTBurn`. -/
def builtInFunctionESDTBurn : String := "ESDTBurn"

/-- Go `core.BuiltInFunctionESDTFreeze`. -/
def builtInFunctionESDTFreeze : String := "ESDTFreeze"

/-- Go `core.BuiltInFunctionESDTUnFreeze`. -/
def builtInFunctionESDTUnFreeze : String := "ESDTUnFreeze"

/-- Go `core.BuiltInFunctionESDTWipe`. -/
def builtInFunctionESDTWipe : String := "ESDTWipe"

/-- Go `core.BuiltInFunctionESDTPause`. -/
def builtInFunctionESDTPause : String := "ESDTPause"

/-- Go `core.BuiltInFunctionESDTUnPause`. -/
def builtInFunctionESDTUnPause : String := "ESDTUnPause"

/-- Go `core.SCDeployInitFunctionName`. -/
def scDeployInitFunctionName : String := "_init"

/-- The ESDT token record (generated `ESDTData` proto struct).  Go zero
values of omitted fields are `false` / empty. -/
structure ESDTData where
  OwnerAddress : Bytes
  TokenName : Bytes
  MintedValue : Int
  BurntValue : Int
  IsPaused : Bool
  Upgradable : Bool
  Burnable : Bool
  Mintable : Bool
  CanPause : Bool
  CanFreeze : Bool
  CanWipe : Bool
  CanChangeOwner : Bool
deriving DecidableEq, Repr

/-- The contract configuration record (generated `ESDTConfig` proto struct). -/
structure ESDTConfig where
  OwnerAddress : Bytes
  BaseIssuingCost : Int
  MinTokenNameLength : Nat
  MaxTokenNameLength : Nat
deriving DecidableEq, Repr

/-- A value held in contract storage.  Go stores marshalled bytes; the model
keeps the structured value (`token` / `config`) or raw bytes (`raw`), with
`storedBytes` below standing in for the opaque proto serialization. -/
inductive StoredValue where
  | raw (b : Bytes)
  | token (t : ESDTData)
  | config (c : ESDTConfig)
deriving DecidableEq, Repr

/-- Contract storage: key/value pairs, later writes shadowing earlier ones. -/
abbrev Storage := List (Bytes × StoredValue)

def storeGet : Storage → Bytes → Option StoredValue
  | [], _ => none
  | (k, v) :: rest, key => if k = key then some v else storeGet rest key

def storeSet (s : Storage) (k : Bytes) (v : StoredValue) : Storage :=
  (k, v) :: s

/-- Repeated-division loop of `big.Int.Bytes()`; the first argument is a
structural-recursion fuel, and `fuel >= n` always suffices since the byte
count of `n` never exceeds `n`. -/
def natBytesGo (fuel n : Nat) : Bytes :=
  match fuel with
  | 0 => []
  | fuel + 1 => if n = 0 then [] else natBytesGo fuel (n / 256) ++ [n % 256]

/-- Go `big.Int.Bytes()`: minimal big-endian bytes, empty for zero. -/
def natBytes (n : Nat) : Bytes :=
  natBytesGo n n

def intBytes (i : Int) : Bytes :=
  natBytes i.toNat

/-- Go `big.NewInt(0).SetBytes(b)`: big-endian interpretation. -/
def bytesToNat (b : Bytes) : Nat :=
  b.foldl (fun acc x => acc * 256 + x) 0

def boolByte (b : Bool) : Nat :=
  if b then 1 else 0

/-- Stand-in for the proto serialization of a token record.  The exact wire
bytes are opaque to the contract; the contract only relies on non-emptiness
(guaranteed by the tag byte) and on raw concatenation for the directory key. -/
def tokenBytes (t : ESDTData) : Bytes :=
  1 :: (t.OwnerAddress ++ t.TokenName ++ intBytes t.MintedValue ++ intBytes t.BurntValue
    ++ [boolByte t.IsPaused, boolByte t.Upgradable, boolByte t.Burnable, boolByte t.Mintable,
        boolByte t.CanPause, boolByte t.CanFreeze, boolByte t.CanWipe, boolByte t.CanChangeOwner])

/-- Stand-in for the proto serialization of a config record. -/
def configBytes (c : ESDTConfig) : Bytes :=
  2 :: (c.OwnerAddress ++ intBytes c.BaseIssuingCost
    ++ natBytes c.MinTokenNameLength ++ natBytes c.MaxTokenNameLength)

def storedBytes : StoredValue → Bytes
  | .raw b => b
  | .token t => tokenBytes t
  | .config c => configBytes c

/-- Go `eei.GetStorage` combined with the ubiquitous `len(data) > 0` test:
a key holding empty bytes counts as absent. -/
def storeLookup (s : Storage) (k : Bytes) : Option StoredValue :=
  match storeGet s k with
  | none => none
  | some v => if storedBytes v = [] then none else some v

/-- `vmcommon.ReturnCode` values used by the contract. -/
inductive ReturnCode where
  | ok
  | userError
  | outOfGas
  | outOfFunds
  | functionWrongSignature
  | functionNotFound
deriving DecidableEq, Repr

/-- Errors from the `vm` package used by the contract.  The message text
stands in for the Go error strings; it is only appended to the return-message
log. -/
inductive VmErr where
  | negativeOrZeroInitialSupply
  | tokenAlreadyRegistered
  | tokenNameNotHumanReadable
  | invalidNumOfArguments
  | invalidArgument
  | noTokenWithGivenName
  | unmarshalFailed
deriving DecidableEq, Repr

def VmErr.message : VmErr → String
  | .negativeOrZeroInitialSupply => "negative or zero initial supply"
  | .tokenAlreadyRegistered => "token already registered"
  | .tokenNameNotHumanReadable => "token name not human readable"
  | .invalidNumOfArguments => "invalid number of arguments"
  | .invalidArgument => "invalid argument"
  | .noTokenWithGivenName => "no token with given name"
  | .unmarshalFailed => "unmarshal failed"

/-- One `eei.Transfer` call recorded by the environment. -/
structure TransferEntry where
  destination : Bytes
  sender : Bytes
  value : Int
  input : String
  gasLimit : Nat
deriving DecidableEq, Repr

/-- State of the system environment interface (`vm.SystemEI`) visible to the
contract: sandboxed storage, remaining gas, and the accumulated effect logs.
`Transfer` is modelled as always succeeding (its failure modes live outside
the sampled code). -/
structure EEIState where
  storage : Storage
  gasRemaining : Nat
  returnMessages : List String
  transfers : List TransferEntry
  output : List Bytes
  broadcasts : List (Bytes × Bytes)
  balances : List (Bytes × Int)
deriving DecidableEq, Repr

def addReturnMessage (st : EEIState) (msg : String) : EEIState :=
  { st with returnMessages := st.returnMessages ++ [msg] }

/-- Go `eei.UseGas`: fails (returning `none`) when the remaining gas is
insufficient, otherwise deducts. -/
def useGas (st : EEIState) (cost : Nat) : Option EEIState :=
  if cost ≤ st.gasRemaining then some { st with gasRemaining := st.gasRemaining - cost }
  else none

def doTransfer (st : EEIState) (destination sender : Bytes) (value : Int)
    (input : String) (gasLimit : Nat) : EEIState :=
  { st with transfers := st.transfers ++ [⟨destination, sender, value, input, gasLimit⟩] }

def balanceGet : List (Bytes × Int) → Bytes → Int
  | [], _ => 0
  | (k, v) :: rest, key => if k = key then v else balanceGet rest key

def finish (st : EEIState) (b : Bytes) : EEIState :=
  { st with output := st.output ++ [b] }

def sendGlobalSettingToAll (st : EEIState) (sender payload : Bytes) : EEIState :=
  { st with broadcasts := st.broadcasts ++ [(sender, payload)] }

/-- Gas-cost schedule entries used by the contract. -/
structure GasCost where
  esdtIssue : Nat
  esdtOperations : Nat
  dataCopyPerByte : Nat
deriving DecidableEq, Repr

/-- Static data of the `esdt` contract struct (eei, marshalizer, hasher and
epoch plumbing are modelled elsewhere; `flagEnabled` is the `enabled`
argument of `execute`). -/
structure EsdtContract where
  gasCost : GasCost
  baseIssuingCost : Int
  ownerAddress : Bytes
  eSDTSCAddress : Bytes
deriving DecidableEq, Repr

/-- `vmcommon.ContractCallInput` fields used by the contract. -/
structure ContractCallInput where
  callerAddr : Bytes
  recipientAddr : Bytes
  callValue : Int
  gasProvided : Nat
  function : String
  arguments : List Bytes
deriving DecidableEq, Repr

def hexDigitChar (n : Nat) : Char :=
  if n < 10 then Char.ofNat (48 + n) else Char.ofNat (87 + n)

/-- Go `hex.EncodeToString`. -/
def hexEncode (b : Bytes) : String :=
  ⟨b.foldr (fun x acc => hexDigitChar (x / 16 % 16) :: hexDigitChar (x % 16) :: acc) []⟩

/-- Go `isTokenNameHumanReadable`. -/
def isTokenNameHumanReadable (tokenName : Bytes) : Bool :=
  tokenName.all (fun ch =>
    (97 ≤ ch && ch ≤ 122) || (65 ≤ ch && ch ≤ 90) || (48 ≤ ch && ch ≤ 57))

/-- Go `checkAndGetSetting`. -/
def checkAndGetSetting (arg : Bytes) : Except VmErr Bool :=
  if arg = strBytes "true" then .ok true
  else if arg = strBytes "false" then .ok false
  else .error .invalidArgument

/-- Go `getStringFromBool`. -/
def getStringFromBool (val : Bool) : String :=
  if val then "true" else "false"

/-- Loop body of Go `upgradeProperties` (pairs `flagName, "true"|"false"`). -/
def upgradePropertiesLoop : ESDTData → List Bytes → Except VmErr ESDTData
  | token, [] => .ok token
  | _, [_] => .error .invalidNumOfArguments
  | token, name :: val :: rest =>
    match checkAndGetSetting val with
    | .error err => .error err
    | .ok v =>
      if name = strBytes "canBurn" then upgradePropertiesLoop { token with Burnable := v } rest
      else if name = strBytes "canMint" then upgradePropertiesLoop { token with Mintable := v } rest
      else if name = strBytes "canPause" then upgradePropertiesLoop { token with CanPause := v } rest
      else if name = strBytes "canFreeze" then upgradePropertiesLoop { token with CanFreeze := v } rest
      else if name = strBytes "canWipe" then upgradePropertiesLoop { token with CanWipe := v } rest
      else if name = strBytes "canUpgrade" then upgradePropertiesLoop { token with Upgradable := v } rest
      else if name = strBytes "canChangeOwner" then upgradePropertiesLoop { token with CanChangeOwner := v } rest
      else .error .invalidArgument

/-- Go `upgradeProperties`. -/
def upgradeProperties (token : ESDTData) (args : List Bytes) : Except VmErr ESDTData :=
  if args.length = 0 then .ok token
  else if args.length % 2 ≠ 0 then .error .invalidNumOfArguments
  else upgradePropertiesLoop token args

/-- Go `saveToken` (marshalling cannot fail in the model). -/
def saveToken (st : EEIState) (token : ESDTData) : EEIState :=
  { st with storage := storeSet st.storage token.TokenName (.token token) }

/-- Go `getExistingToken`. -/
def getExistingToken (s : Storage) (tokenName : Bytes) : Except VmErr ESDTData :=
  match storeLookup s tokenName with
  | none => .error .noTokenWithGivenName
  | some (.token t) => .ok t
  | some _ => .error .unmarshalFailed

/-- Go `getESDTConfig`: built-in defaults when no config record is stored. -/
def getESDTConfig (e : EsdtContract) (s : Storage) : Except VmErr ESDTConfig :=
  let esdtConfig : ESDTConfig :=
    { OwnerAddress := e.ownerAddress
      BaseIssuingCost := e.baseIssuingCost
      MinTokenNameLength := minLengthForTokenName
      MaxTokenNameLength := maxLengthForTokenName }
  match storeLookup s configKeyBytes with
  | none => .ok esdtConfig
  | some (.config c) => .ok c
  | some _ => .error .unmarshalFailed

/-- Go `saveESDTConfig` (marshalling cannot fail in the model). -/
def saveESDTConfig (st : EEIState) (c : ESDTConfig) : EEIState :=
  { st with storage := storeSet st.storage configKeyBytes (.config c) }

/-- Go `addToIssuedTokens`. -/
def addToIssuedTokens (st : EEIState) (newToken : Bytes) : EEIState :=
  match storeLookup st.storage allIssuedTokensKey with
  | none => { st with storage := storeSet st.storage allIssuedTokensKey (.raw newToken) }
  | some v =>
    let appended := StoredValue.raw (storedBytes v ++ strBytes "@" ++ newToken)
    { st with storage := storeSet st.storage allIssuedTokensKey appended }

/-- Go `issueToken`. -/
def issueToken (e : EsdtContract) (owner : Bytes) (arguments : List Bytes)
    (st : EEIState) : EEIState × Option VmErr :=
  let tokenName := arguments.getD 0 []
  let initialSupply : Int := (bytesToNat (arguments.getD 1 []) : Int)
  if initialSupply ≤ 0 then (st, some .negativeOrZeroInitialSupply)
  else if (storeLookup st.storage tokenName).isSome then (st, some .tokenAlreadyRegistered)
  else if ! isTokenNameHumanReadable tokenName then (st, some .tokenNameNotHumanReadable)
  else
    let newESDTToken : ESDTData :=
      { OwnerAddress := owner
        TokenName := tokenName
        MintedValue := initialSupply
        BurntValue := 0
        IsPaused := false
        Upgradable := true
        Burnable := false
        Mintable := false
        CanPause := false
        CanFreeze := false
        CanWipe := false
        CanChangeOwner := false }
    match upgradeProperties newESDTToken (arguments.drop 2) with
    | .error err => (st, some err)
    | .ok token =>
      let st1 := saveToken st token
      let payload := builtInFunctionESDTTransfer ++ "@" ++ hexEncode tokenName
        ++ "@" ++ hexEncode (intBytes initialSupply)
      let st2 := doTransfer st1 owner e.eSDTSCAddress 0 payload 0
      (addToIssuedTokens st2 tokenName, none)

/-- Go `issue`. -/
def issue (e : EsdtContract) (args : ContractCallInput) (st : EEIState) :
    EEIState × ReturnCode :=
  if args.arguments.length < 2 then
    (addReturnMessage st "not enough arguments", .functionWrongSignature)
  else
    match useGas st e.gasCost.esdtIssue with
    | none => (addReturnMessage st "not enough gas", .outOfGas)
    | some st1 =>
      match getESDTConfig e st1.storage with
      | .error err => (addReturnMessage st1 err.message, .userError)
      | .ok esdtConfig =>
        if (args.arguments.getD 0 []).length < esdtConfig.MinTokenNameLength ∨
            (args.arguments.getD 0 []).length > esdtConfig.MaxTokenNameLength then
          (addReturnMessage st1 "token name length not in parameters", .functionWrongSignature)
        else if args.callValue ≠ esdtConfig.BaseIssuingCost then
          (addReturnMessage st1 "callValue not equals with baseIssuingCost", .outOfFunds)
        else
          match issueToken e args.callerAddr args.arguments st1 with
          | (st2, some err) => (addReturnMessage st2 err.message, .userError)
          | (st2, none) => (st2, .ok)

/-- Go `issueProtected`. -/
def issueProtected (e : EsdtContract) (args : ContractCallInput) (st : EEIState) :
    EEIState × ReturnCode :=
  if args.callerAddr ≠ e.ownerAddress then
    (addReturnMessage st "issueProtected can be called by whitelisted address only", .userError)
  else if args.arguments.length < 3 then
    (addReturnMessage st "not enough arguments", .functionWrongSignature)
  else if (args.arguments.getD 0 []).length ≠ args.callerAddr.length then
    (addReturnMessage st "invalid owner address length", .functionWrongSignature)
  else
    match useGas st e.gasCost.esdtIssue with
    | none => (addReturnMessage st "not enough gas", .outOfGas)
    | some st1 =>
      match getESDTConfig e st1.storage with
      | .error err => (addReturnMessage st1 err.message, .userError)
      | .ok esdtConfig =>
        if args.callValue ≠ esdtConfig.BaseIssuingCost then
          (addReturnMessage st1 "callValue not equals with baseIssuingCost", .outOfFunds)
        else
          match issueToken e (args.arguments.getD 0 []) (args.arguments.drop 1) st1 with
          | (st2, some err) => (addReturnMessage st2 err.message, .userError)
          | (st2, none) => (st2, .ok)

/-- Go `burn`.  The token with the increased `BurntValue` is saved to storage
before the gas deduction. -/
def burn (e : EsdtContract) (args : ContractCallInput) (st : EEIState) :
    EEIState × ReturnCode :=
  if args.arguments.length ≠ 2 then
    (addReturnMessage st "number of arguments must be equal with 2", .functionWrongSignature)
  else if args.callValue ≠ 0 then
    (addReturnMessage st "callValue must be 0", .outOfFunds)
  else
    let burntValue : Int := (bytesToNat (args.arguments.getD 1 []) : Int)
    if burntValue ≤ 0 then
      (addReturnMessage st "negative or 0 value to burn", .userError)
    else
      match getExistingToken st.storage (args.arguments.getD 0 []) with
      | .error err => (addReturnMessage st err.message, .userError)
      | .ok token =>
        if ! token.Burnable then
          (addReturnMessage st "token is not burnable", .userError)
        else
          let st1 := saveToken st { token with BurntValue := token.BurntValue + burntValue }
          match useGas st1 args.gasProvided with
          | none => (addReturnMessage st1 "not enough gas", .outOfGas)
          | some st2 => (st2, .ok)

/-- Go `basicOwnershipChecks`. -/
def basicOwnershipChecks (e : EsdtContract) (args : ContractCallInput) (st : EEIState) :
    EEIState × Option ESDTData × ReturnCode :=
  if args.callValue ≠ 0 then
    (addReturnMessage st "callValue must be 0", none, .outOfFunds)
  else
    match useGas st e.gasCost.esdtOperations with
    | none => (addReturnMessage st "not enough gas", none, .outOfGas)
    | some st1 =>
      match getExistingToken st1.storage (args.arguments.getD 0 []) with
      | .error err => (addReturnMessage st1 err.message, none, .userError)
      | .ok token =>
        if token.OwnerAddress ≠ args.callerAddr then
          (addReturnMessage st1 "can be called by owner only", none, .userError)
        else
          (st1, some token, .ok)

/-- Go `mint`.  Note: the token with the increased `MintedValue` is saved
before the optional third (destination) argument is validated. -/
def mint (e : EsdtContract) (args : ContractCallInput) (st : EEIState) :
    EEIState × ReturnCode :=
  if args.arguments.length < 2 ∨ args.arguments.length > 3 then
    (addReturnMessage st "accepted arguments number 2/3", .functionWrongSignature)
  else
    match basicOwnershipChecks e args st with
    | (st1, some token, ReturnCode.ok) =>
      let mintValue : Int := (bytesToNat (args.arguments.getD 1 []) : Int)
      if mintValue ≤ 0 then
        (addReturnMessage st1 "negative or zero mint value", .userError)
      else if ! token.Mintable then
        (addReturnMessage st1 "token is not mintable", .userError)
      else
        let token1 := { token with MintedValue := token.MintedValue + mintValue }
        let st2 := saveToken st1 token1
        if args.arguments.length = 3 ∧ (args.arguments.getD 2 []).length ≠ args.callerAddr.length then
          (addReturnMessage st2 "destination address of invalid length", .userError)
        else
          let destination := if args.arguments.length = 3 then args.arguments.getD 2 []
                             else token1.OwnerAddress
          let payload := builtInFunctionESDTTransfer ++ "@" ++ hexEncode token1.TokenName
            ++ "@" ++ hexEncode (intBytes mintValue)
          (doTransfer st2 destination e.eSDTSCAddress 0 payload 0, .ok)
    | (st1, _, rc) => (st1, rc)

/-- Go `toggleFreeze`. -/
def toggleFreeze (e : EsdtContract) (args : ContractCallInput) (builtInFunc : String)
    (st : EEIState) : EEIState × ReturnCode :=
  if args.arguments.length ≠ 2 then
    (addReturnMessage st "invalid number of arguments, wanted 2", .functionWrongSignature)
  else
    match basicOwnershipChecks e args st with
    | (st1, some token, ReturnCode.ok) =>
      if ! token.CanFreeze then
        (addReturnMessage st1 "cannot freeze", .userError)
      else
        let payload := builtInFunc ++ "@" ++ hexEncode token.TokenName
        (doTransfer st1 (args.arguments.getD 1 []) e.eSDTSCAddress 0 payload 0, .ok)
    | (st1, _, rc) => (st1, rc)

/-- Go `wipe`. -/
def wipe (e : EsdtContract) (args : ContractCallInput) (st : EEIState) :
    EEIState × ReturnCode :=
  if args.arguments.length ≠ 2 then
    (addReturnMessage st "invalid number of arguments, wanted 2", .functionWrongSignature)
  else
    match basicOwnershipChecks e args st with
    | (st1, some token, ReturnCode.ok) =>
      if ! token.CanWipe then
        (addReturnMessage st1 "cannot wipe", .userError)
      else if (args.arguments.getD 1 []).length ≠ args.callerAddr.length then
        (addReturnMessage st1 "invalid arguments", .userError)
      else
        let payload := builtInFunctionESDTWipe ++ "@" ++ hexEncode token.TokenName
        (doTransfer st1 (args.arguments.getD 1 []) e.eSDTSCAddress 0 payload 0, .ok)
    | (st1, _, rc) => (st1, rc)

/-- Go `togglePause`. -/
def togglePause (e : EsdtContract) (args : ContractCallInput) (builtInFunc : String)
    (st : EEIState) : EEIState × ReturnCode :=
  if args.arguments.length ≠ 1 then
    (addReturnMessage st "invalid number of arguments, wanted 1", .functionWrongSignature)
  else
    match basicOwnershipChecks e args st with
    | (st1, some token, ReturnCode.ok) =>
      if ! token.CanPause then
        (addReturnMessage st1 "cannot pause/un-pause", .userError)
      else if token.IsPaused = true ∧ builtInFunc = builtInFunctionESDTPause then
        (addReturnMessage st1 "cannot pause an already paused contract", .userError)
      else if token.IsPaused = false ∧ builtInFunc = builtInFunctionESDTUnPause then
        (addReturnMessage st1 "cannot unPause an already un-paused contract", .userError)
      else
        let token1 := { token with IsPaused := ! token.IsPaused }
        let st2 := saveToken st1 token1
        let payload := builtInFunc ++ "@" ++ hexEncode token1.TokenName
        (sendGlobalSettingToAll st2 e.eSDTSCAddress (strBytes payload), .ok)
    | (st1, _, rc) => (st1, rc)

/-- Go `configChange`. -/
def configChange (e : EsdtContract) (args : ContractCallInput) (st : EEIState) :
    EEIState × ReturnCode :=
  if args.callerAddr ≠ e.ownerAddress then
    (addReturnMessage st "configChange can be called by whitelisted address only", .userError)
  else if args.callValue ≠ 0 then
    (addReturnMessage st "callValue must be 0", .userError)
  else
    match useGas st e.gasCost.esdtOperations with
    | none => (addReturnMessage st "not enough gas", .outOfGas)
    | some st1 =>
      if args.arguments.length ≠ 4 then
        (addReturnMessage st1 VmErr.invalidNumOfArguments.message, .userError)
      else
        let newConfig : ESDTConfig :=
          { OwnerAddress := args.arguments.getD 0 []
            BaseIssuingCost := (bytesToNat (args.arguments.getD 1 []) : Int)
            MinTokenNameLength := bytesToNat (args.arguments.getD 2 []) % 4294967296
            MaxTokenNameLength := bytesToNat (args.arguments.getD 3 []) % 4294967296 }
        if newConfig.OwnerAddress.length ≠ args.recipientAddr.length then
          (addReturnMessage st1 "invalid arguments, first argument must be a valid address", .userError)
        else if newConfig.BaseIssuingCost < 0 then
          (addReturnMessage st1 "invalid new base issueing cost", .userError)
        else if newConfig.MinTokenNameLength > newConfig.MaxTokenNameLength then
          (addReturnMessage st1 "invalid min and max token name lengths", .userError)
        else
          (saveESDTConfig st1 newConfig, .ok)

/-- Go `claim`. -/
def claim (e : EsdtContract) (args : ContractCallInput) (st : EEIState) :
    EEIState × ReturnCode :=
  if args.callerAddr ≠ e.ownerAddress then
    (addReturnMessage st "claim can be called by whitelisted address only", .userError)
  else if args.callValue ≠ 0 then
    (addReturnMessage st "callValue must be 0", .userError)
  else
    match useGas st e.gasCost.esdtOperations with
    | none => (addReturnMessage st "not enough gas", .outOfGas)
    | some st1 =>
      if args.arguments.length ≠ 0 then
        (addReturnMessage st1 VmErr.invalidNumOfArguments.message, .userError)
      else
        let scBalance := balanceGet st1.balances args.recipientAddr
        (doTransfer st1 args.callerAddr args.recipientAddr scBalance "" 0, .ok)

/-- Go `getAllESDTTokens`. -/
def getAllESDTTokens (e : EsdtContract) (args : ContractCallInput) (st : EEIState) :
    EEIState × ReturnCode :=
  if args.callValue ≠ 0 then
    (addReturnMessage st "callValue must be 0", .userError)
  else if args.arguments.length ≠ 0 then
    (addReturnMessage st VmErr.invalidNumOfArguments.message, .userError)
  else
    match useGas st e.gasCost.esdtOperations with
    | none => (addReturnMessage st "not enough gas", .outOfGas)
    | some st1 =>
      let savedData := match storeGet st1.storage allIssuedTokensKey with
                       | none => []
                       | some v => storedBytes v
      match useGas st1 (e.gasCost.dataCopyPerByte * savedData.length) with
      | none => (addReturnMessage st1 "not enough gas", .userError)
      | some st2 => (finish st2 savedData, .ok)

/-- Go `getTokenProperties`. -/
def getTokenProperties (e : EsdtContract) (args : ContractCallInput) (st : EEIState) :
    EEIState × ReturnCode :=
  if args.callValue ≠ 0 then
    (addReturnMessage st "callValue must be 0", .userError)
  else if args.arguments.length ≠ 1 then
    (addReturnMessage st VmErr.invalidNumOfArguments.message, .userError)
  else
    match useGas st e.gasCost.esdtOperations with
    | none => (addReturnMessage st "not enough gas", .outOfGas)
    | some st1 =>
      match getExistingToken st1.storage (args.arguments.getD 0 []) with
      | .error err => (addReturnMessage st1 err.message, .userError)
      | .ok esdtToken =>
        let st2 := finish st1 esdtToken.TokenName
        let st3 := finish st2 esdtToken.OwnerAddress
        let st4 := finish st3 (strBytes (toString esdtToken.MintedValue))
        let st5 := finish st4 (strBytes (toString esdtToken.BurntValue))
        let st6 := finish st5 (strBytes ("IsPaused-" ++ getStringFromBool esdtToken.IsPaused))
        let st7 := finish st6 (strBytes ("CanUpgrade-" ++ getStringFromBool esdtToken.Upgradable))
        let st8 := finish st7 (strBytes ("CanMint-" ++ getStringFromBool esdtToken.Mintable))
        let st9 := finish st8 (strBytes ("CanBurn-" ++ getStringFromBool esdtToken.Burnable))
        let st10 := finish st9 (strBytes ("CanChangeOwner-" ++ getStringFromBool esdtToken.CanChangeOwner))
        let st11 := finish st10 (strBytes ("CanPause-" ++ getStringFromBool esdtToken.CanPause))
        let st12 := finish st11 (strBytes ("CanFreeze-" ++ getStringFromBool esdtToken.CanFreeze))
        (finish st12 (strBytes ("CanWipe-" ++ getStringFromBool esdtToken.CanWipe)), .ok)

/-- Go `transferOwnership`. -/
def transferOwnership (e : EsdtContract) (args : ContractCallInput) (st : EEIState) :
    EEIState × ReturnCode :=
  if args.arguments.length ≠ 2 then
    (addReturnMessage st "expected num of arguments 2", .functionWrongSignature)
  else
    match basicOwnershipChecks e args st with
    | (st1, some token, ReturnCode.ok) =>
      if ! token.CanChangeOwner then
        (addReturnMessage st1 "cannot change owner of the token", .userError)
      else if (args.arguments.getD 1 []).length ≠ args.callerAddr.length then
        (addReturnMessage st1 "destination address of invalid length", .userError)
      else
        (saveToken st1 { token with OwnerAddress := args.arguments.getD 1 [] }, .ok)
    | (st1, _, rc) => (st1, rc)

/-- Go `esdtControlChanges`. -/
def esdtControlChanges (e : EsdtContract) (args : ContractCallInput) (st : EEIState) :
    EEIState × ReturnCode :=
  if args.arguments.length < 2 then
    (addReturnMessage st "not enough arguments", .functionWrongSignature)
  else
    match basicOwnershipChecks e args st with
    | (st1, some token, ReturnCode.ok) =>
      if ! token.Upgradable then
        (addReturnMessage st1 "token is not upgradable", .userError)
      else
        match upgradeProperties token (args.arguments.drop 1) with
        | .error err => (addReturnMessage st1 err.message, .userError)
        | .ok token1 => (saveToken st1 token1, .ok)
    | (st1, _, rc) => (st1, rc)

/-- Go `init`: seeds the default config record (marshalling cannot fail in
the model, so the `UserError` branch is unreachable). -/
def init (e : EsdtContract) (st : EEIState) : EEIState × ReturnCode :=
  let scConfig : ESDTConfig :=
    { OwnerAddress := e.ownerAddress
      BaseIssuingCost := e.baseIssuingCost
      MinTokenNameLength := minLengthForTokenName
      MaxTokenNameLength := maxLengthForTokenName }
  (saveESDTConfig st scConfig, .ok)

/-- Go `Execute`: the dispatch entry point.  `enabled` is the `flagEnabled`
epoch flag; nil-input checks are not representable. -/
def execute (e : EsdtContract) (enabled : Bool) (args : ContractCallInput)
    (st : EEIState) : EEIState × ReturnCode :=
  if args.function = scDeployInitFunctionName then init e st
  else if ! enabled then (addReturnMessage st "ESDT SC disabled", .userError)
  else if args.function = "issue" then issue e args st
  else if args.function = "issueProtected" then issueProtected e args st
  else if args.function = builtInFunctionESDTBurn then burn e args st
  else if args.function = "mint" then mint e args st
  else if args.function = "freeze" then toggleFreeze e args builtInFunctionESDTFreeze st
  else if args.function = "unFreeze" then toggleFreeze e args builtInFunctionESDTUnFreeze st
  else if args.function = "wipe" then wipe e args st
  else if args.function = "pause" then togglePause e args builtInFunctionESDTPause st
  else if args.function = "unPause" then togglePause e args builtInFunctionESDTUnPause st
  else if args.function = "claim" then claim e args st
  else if args.function = "configChange" then configChange e args st
  else if args.function = "esdtControlChanges" then esdtControlChanges e args st
  else if args.function = "transferOwnership" then transferOwnership e args st
  else if args.function = "getAllESDTTokens" then getAllESDTTokens e args st
  else if args.function = "getTokenProperties" then getTokenProperties e args st
  else (addReturnMessage st "invalid method to call", .functionNotFound)

/-- Concrete contract instance used by witnesses and counterexamples. -/
def exContract : EsdtContract :=
  { gasCost := { esdtIssue := 500, esdtOperations := 100, dataCopyPerByte := 1 }
    baseIssuingCost := 400
    ownerAddress := strBytes "contractOwner"
    eSDTSCAddress := strBytes "esdtAddress" }

/-- The default configuration of `exContract`. -/
def exDefaultConfig : ESDTConfig :=
  { OwnerAddress := strBytes "contractOwner"
    BaseIssuingCost := 400
    MinTokenNameLength := 10
    MaxTokenNameLength := 20 }

/-- Environment with empty storage and ample gas. -/
def exEmptyState : EEIState :=
  { storage := []
    gasRemaining := 10000
    returnMessages := []
    transfers := []
    output := []
    broadcasts := []
    balances := [] }

/-- An `issue` call with the too-short identifier of the frozen claim C2. -/
def exIssueShortArgs : ContractCallInput :=
  { callerAddr := strBytes "callerAddr"
    recipientAddr := strBytes "esdtAddress"
    callValue := 400
    gasProvided := 10000
    function := "issue"
    arguments := [strBytes "ABC123", [3, 232]] }

/-- An `issue` call with a valid 11-byte identifier, supply 1000 (bytes
`[3, 232]`), no optional flags, attached value 400. -/
def exIssueArgs : ContractCallInput :=
  { exIssueShortArgs with arguments := [strBytes "ALPHATOKENS", [3, 232]] }

/-- A pausable token owned by `"ownerAddr1"`. -/
def exPauseToken : ESDTData :=
  { OwnerAddress := strBytes "ownerAddr1"
    TokenName := strBytes "PAUSETOKENX"
    MintedValue := 1000
    BurntValue := 0
    IsPaused := false
    Upgradable := true
    Burnable := false
    Mintable := false
    CanPause := true
    CanFreeze := false
    CanWipe := false
    CanChangeOwner := false }

def exPauseState : EEIState :=
  { exEmptyState with storage := [(strBytes "PAUSETOKENX", .token exPauseToken)] }

/-- A `pause` call by an address that is not the token owner. -/
def exPauseBadArgs : ContractCallInput :=
  { callerAddr := strBytes "otherAddr9"
    recipientAddr := strBytes "esdtAddress"
    callValue := 0
    gasProvided := 1000
    function := "pause"
    arguments := [strBytes "PAUSETOKENX"] }

/-- The same `pause` call issued by the token owner. -/
def exPauseOwnArgs : ContractCallInput :=
  { exPauseBadArgs with callerAddr := strBytes "ownerAddr1" }

/-- A two-argument call on the pause token by a non-owner (for the
owner-check conjuncts on the other mutating operations). -/
def exTwoArgBadOwner : ContractCallInput :=
  { exPauseBadArgs with arguments := [strBytes "PAUSETOKENX", strBytes "x"] }

/-- A mintable token owned by `"ownerAddr1"`. -/
def exMintToken : ESDTData :=
  { exPauseToken with
    TokenName := strBytes "MINTTOKENXX"
    Mintable := true
    CanPause := false }

def exMintState : EEIState :=
  { exEmptyState with storage := [(strBytes "MINTTOKENXX", .token exMintToken)] }

/-- A `mint` call by the owner whose third (destination) argument has an
invalid length (3 instead of 10). -/
def exMintBadDestArgs : ContractCallInput :=
  { callerAddr := strBytes "ownerAddr1"
    recipientAddr := strBytes "esdtAddress"
    callValue := 0
    gasProvided := 1000
    function := "mint"
    arguments := [strBytes "MINTTOKENXX", [50], strBytes "abc"] }

/-- A burnable token owned by `"ownerAddr1"` with 10 already burnt. -/
def exBurnToken : ESDTData :=
  { exPauseToken with
    TokenName := strBytes "BURNTOKENXX"
    Burnable := true
    CanPause := false
    BurntValue := 10 }

/-- Environment holding the burn token with only 5 gas remaining. -/
def exBurnState : EEIState :=
  { exEmptyState with
    storage := [(strBytes "BURNTOKENXX", .token exBurnToken)]
    gasRemaining := 5 }

/-- A `burn` call of 7 units providing 100 gas (more than remains). -/
def exBurnArgs : ContractCallInput :=
  { callerAddr := strBytes "anyoneElse"
    recipientAddr := strBytes "esdtAddress"
    callValue := 0
    gasProvided := 100
    function := "ESDTBurn"
    arguments := [strBytes "BURNTOKENXX", [7]] }

end Esdt

-- ===================================================================
-- Theorems: heartbeat liveness tracker
-- ===================================================================

namespace Heartbeat

@[simp] theorem updateMaxInactiveTimeDuration_totalUpTime (h : HbState) (c : Int) :
    (updateMaxInactiveTimeDuration h c).totalUpTime = h.totalUpTime := by
  simp only [updateMaxInactiveTimeDuration]; split <;> rfl

@[simp] theorem updateMaxInactiveTimeDuration_totalDownTime (h : HbState) (c : Int) :
    (updateMaxInactiveTimeDuration h c).totalDownTime = h.totalDownTime := by
  simp only [updateMaxInactiveTimeDuration]; split <;> rfl

@[simp] theorem updateMaxInactiveTimeDuration_lastUptimeDowntime (h : HbState) (c : Int) :
    (updateMaxInactiveTimeDuration h c).lastUptimeDowntime = h.lastUptimeDowntime := by
  simp only [updateMaxInactiveTimeDuration]; split <;> rfl

@[simp] theorem updateMaxInactiveTimeDuration_genesisTime (h : HbState) (c : Int) :
    (updateMaxInactiveTimeDuration h c).genesisTime = h.genesisTime := by
  simp only [updateMaxInactiveTimeDuration]; split <;> rfl

@[simp] theorem updateMaxInactiveTimeDuration_isActive (h : HbState) (c : Int) :
    (updateMaxInactiveTimeDuration h c).isActive = h.isActive := by
  simp only [updateMaxInactiveTimeDuration]; split <;> rfl

@[simp] theorem updateUpAndDownTime_lastUptimeDowntime (h : HbState) (p : Bool) (c : Int) :
    (updateUpAndDownTime h p c).lastUptimeDowntime = c := by
  simp only [updateUpAndDownTime]

@[simp] theorem updateUpAndDownTime_genesisTime (h : HbState) (p : Bool) (c : Int) :
    (updateUpAndDownTime h p c).genesisTime = h.genesisTime := by
  simp only [updateUpAndDownTime]; split <;> split <;> rfl

@[simp] theorem updateUpAndDownTime_isActive (h : HbState) (p : Bool) (c : Int) :
    (updateUpAndDownTime h p c).isActive = h.isActive := by
  simp only [updateUpAndDownTime]; split <;> split <;> rfl

@[simp] theorem updateUpAndDownTime_maxInactiveTime (h : HbState) (p : Bool) (c : Int) :
    (updateUpAndDownTime h p c).maxInactiveTime = h.maxInactiveTime := by
  simp only [updateUpAndDownTime]; split <;> split <;> rfl

theorem updateUpAndDownTime_sum (h : HbState) (p : Bool) (c : Int) :
    (updateUpAndDownTime h p c).totalUpTime + (updateUpAndDownTime h p c).totalDownTime
      = h.totalUpTime + h.totalDownTime
        + maxDuration 0 (c - maxDuration h.lastUptimeDowntime h.genesisTime) := by
  simp only [updateUpAndDownTime, maxDuration]
  split <;> split <;> dsimp only <;> split_ifs <;> omega

@[simp] theorem updateTimes_isActive (h : HbState) (c : Int) (p : Bool) :
    (updateTimes h c p).isActive = h.isActive := by
  unfold updateTimes; split <;> simp

@[simp] theorem updateTimes_genesisTime (h : HbState) (c : Int) (p : Bool) :
    (updateTimes h c p).genesisTime = h.genesisTime := by
  unfold updateTimes; split <;> simp

theorem updateTimes_inv (h : HbState) (c : Int) (p : Bool)
    (hI : upDownInv h) (hL : h.lastUptimeDowntime ≤ c) :
    upDownInv (updateTimes h c p) ∧ (updateTimes h c p).lastUptimeDowntime ≤ c := by
  unfold updateTimes
  split
  · exact ⟨hI, hL⟩
  · unfold upDownInv at *
    rw [updateUpAndDownTime_sum, updateUpAndDownTime_lastUptimeDowntime,
        updateUpAndDownTime_genesisTime]
    simp only [updateMaxInactiveTimeDuration_totalUpTime,
      updateMaxInactiveTimeDuration_totalDownTime,
      updateMaxInactiveTimeDuration_lastUptimeDowntime,
      updateMaxInactiveTimeDuration_genesisTime]
    unfold maxDuration at *
    constructor
    · split_ifs at * <;> omega
    · exact le_refl c

theorem updateTimes_sum_exact (h : HbState) (c : Int) (p : Bool)
    (hI : upDownInv h) (hL : h.lastUptimeDowntime ≤ c) (hg : h.genesisTime ≤ c) :
    (updateTimes h c p).totalUpTime + (updateTimes h c p).totalDownTime
      = c - h.genesisTime := by
  unfold updateTimes
  split
  · omega
  · unfold upDownInv at hI
    rw [updateUpAndDownTime_sum]
    simp only [updateMaxInactiveTimeDuration_totalUpTime,
      updateMaxInactiveTimeDuration_totalDownTime,
      updateMaxInactiveTimeDuration_lastUptimeDowntime,
      updateMaxInactiveTimeDuration_genesisTime]
    unfold maxDuration at *
    split_ifs at * <;> omega

theorem hbStep_inv (h : HbState) (e : HbEvent)
    (hI : upDownInv h) (hL : h.lastUptimeDowntime ≤ e.time) :
    upDownInv (hbStep h e) ∧ (hbStep h e).lastUptimeDowntime ≤ e.time ∧
      (hbStep h e).genesisTime = h.genesisTime := by
  cases e with
  | heartbeat t cs rs v n =>
    have := updateTimes_inv { h with isActive := true } t
      (h.isActive && computeValidDuration t h) hI hL
    unfold hbStep heartbeatReceived updateFields upDownInv at *
    dsimp only at *
    exact ⟨this.1, this.2, by simp⟩
  | reevaluate t =>
    have := updateTimes_inv { h with isActive := h.isActive && computeValidDuration t h } t
      (h.isActive && computeValidDuration t h) hI hL
    unfold hbStep computeActive upDownInv at *
    dsimp only at *
    exact ⟨this.1, this.2, by simp⟩

theorem hbRun_inv : ∀ (es : List HbEvent) (h : HbState) (t : Int),
    upDownInv h → h.lastUptimeDowntime ≤ t → timesMono t es = true →
    upDownInv (hbRun h es) ∧ (hbRun h es).lastUptimeDowntime ≤ lastTime t es ∧
      (hbRun h es).genesisTime = h.genesisTime
  | [], h, t, hI, hL, _ => ⟨hI, hL, rfl⟩
  | e :: es, h, t, hI, hL, hm => by
    simp only [timesMono, Bool.and_eq_true, decide_eq_true_eq] at hm
    have h1 := hbStep_inv h e hI (le_trans hL hm.1)
    have h2 := hbRun_inv es (hbStep h e) e.time h1.1 h1.2.1 hm.2
    exact ⟨h2.1, h2.2.1, h2.2.2.trans h1.2.2⟩

theorem updateMaxInactiveTimeDuration_mono (h : HbState) (c : Int) :
    h.maxInactiveTime ≤ (updateMaxInactiveTimeDuration h c).maxInactiveTime := by
  simp only [updateMaxInactiveTimeDuration]
  split
  · next hcond => exact le_of_lt hcond.1
  · exact le_refl _

theorem updateTimes_maxInactiveTime_mono (h : HbState) (c : Int) (p : Bool) :
    h.maxInactiveTime ≤ (updateTimes h c p).maxInactiveTime := by
  simp only [updateTimes]
  split
  · exact le_refl _
  · rw [updateUpAndDownTime_maxInactiveTime]
    exact updateMaxInactiveTimeDuration_mono h c

theorem hbStep_maxInactiveTime_mono (h : HbState) (e : HbEvent) :
    h.maxInactiveTime ≤ (hbStep h e).maxInactiveTime := by
  cases e with
  | heartbeat t cs rs v n =>
    simp only [hbStep, heartbeatReceived, updateFields]
    exact updateTimes_maxInactiveTime_mono { h with isActive := true } t
      (h.isActive && computeValidDuration t h)
  | reevaluate t =>
    simp only [hbStep, computeActive]
    exact updateTimes_maxInactiveTime_mono
      { h with isActive := h.isActive && computeValidDuration t h } t
      (h.isActive && computeValidDuration t h)

/-- Claim C6: immediately after a `HeartbeatReceived` call the record is
marked active, regardless of the prior state. -/
theorem C6_heartbeatReceived_isActive (h : HbState) (crtTime : Int)
    (cs rs : Nat) (v n : String) :
    (heartbeatReceived h crtTime cs rs v n).isActive = true := by
  simp only [heartbeatReceived, updateFields]
  rw [updateTimes_isActive]

/-- Claim C7: if the time elapsed since the last recorded message timestamp
exceeds `maxDurationPeerUnresponsive`, then `computeActive` (the periodic
`reevaluate` sweep) leaves the record inactive. -/
theorem C7_reevaluate_inactive (h : HbState) (now : Int)
    (hyp : h.maxDurationPeerUnresponsive < now - h.timeStamp) :
    (computeActive h now).isActive = false := by
  have hv : computeValidDuration now h = false := by
    simp only [computeValidDuration, maxDuration, decide_eq_false_iff_not, not_le]
    split <;> omega
  simp only [computeActive, hv, Bool.and_false]
  rw [updateTimes_isActive]

theorem C7_witness :
    hbW7.maxDurationPeerUnresponsive < 11 - hbW7.timeStamp ∧
      (computeActive hbW7 11).isActive = false :=
  ⟨by decide, C7_reevaluate_inactive hbW7 11 (by decide)⟩

/-- Claim C8: after each call in any sequence of `HeartbeatReceived` /
`reevaluate` calls, `maxInactiveTime` is at least its value before that
call (it is monotonically non-decreasing). -/
theorem C8_maxInactiveTime_monotone (h : HbState) (es : List HbEvent) (e : HbEvent) :
    (hbRun h es).maxInactiveTime ≤ (hbRun h (es ++ [e])).maxInactiveTime := by
  simp only [hbRun, List.foldl_append, List.foldl_cons, List.foldl_nil]
  exact hbStep_maxInactiveTime_mono (hbRun h es) e

/-- Claim C1 as frozen is false: a record constructed when the clock already
reads past genesis (genesis 0, construction clock 5) settles only the span
since construction, so after `reevaluate(5)` with `5 >= genesisTimestamp`
the total is `0`, not `now - genesisTimestamp = 5`. -/
theorem C1_counterexample :
    ((newHeartbeatMessageInfo 100 false 0 5).map (fun h0 =>
        decide ((computeActive h0 5).totalUpTime + (computeActive h0 5).totalDownTime
          = 5 - 0))) = some false := by decide

/-- Claim C1 (amended): provided the record is constructed no later than
genesis (construction clock `t0 <= genesisTime`) and clock readings are
non-decreasing across the call sequence, after any `reevaluate(now)` with
`now >= genesisTime` the settled `totalUpTime + totalDownTime` equals exactly
`now - genesisTime`, regardless of the interleaving of message receptions and
sweeps and of the active/inactive state. -/
theorem C1_amended_reevaluate_total_time (maxDur t0 g now : Int) (isVal : Bool)
    (h0 : HbState) (es : List HbEvent)
    (hc : newHeartbeatMessageInfo maxDur isVal g t0 = some h0)
    (ht0 : t0 ≤ g)
    (hm : timesMono t0 es = true)
    (hlast : lastTime t0 es ≤ now)
    (hg : g ≤ now) :
    (computeActive (hbRun h0 es) now).totalUpTime
      + (computeActive (hbRun h0 es) now).totalDownTime = now - g := by
  simp only [newHeartbeatMessageInfo] at hc
  split at hc
  · exact absurd hc (by simp)
  · rw [Option.some_inj] at hc
    subst hc
    have hI0 : upDownInv
        { maxDurationPeerUnresponsive := maxDur, maxInactiveTime := 0, isActive := false,
          receivedShardID := 0, computedShardID := 0, timeStamp := g,
          lastUptimeDowntime := t0, totalUpTime := 0, totalDownTime := 0,
          versionNumber := "", nodeDisplayName := "", isValidator := isVal,
          genesisTime := g } := by
      unfold upDownInv maxDuration
      dsimp only
      split <;> omega
    have hrun := hbRun_inv es _ t0 hI0 (le_refl t0) hm
    have hLf : (hbRun _ es).lastUptimeDowntime ≤ now := le_trans hrun.2.1 hlast
    have hgf : (hbRun _ es).genesisTime = g := hrun.2.2
    set hf := hbRun _ es with hhf
    simp only [computeActive]
    have hfin := updateTimes_sum_exact
      { hf with isActive := hf.isActive && computeValidDuration now hf } now
      (hf.isActive && computeValidDuration now hf) hrun.1 hLf (by rw [show ({ hf with isActive := hf.isActive && computeValidDuration now hf} : HbState).genesisTime = g from hgf]; exact hg)
    rw [hfin]
    rw [show ({ hf with isActive := hf.isActive && computeValidDuration now hf} : HbState).genesisTime = g from hgf]

theorem C1_amended_witness :
    newHeartbeatMessageInfo 100 false 0 0 = some hbW1 ∧ (0 : Int) ≤ 0 ∧
    timesMono 0 hbW1Events = true ∧ lastTime 0 hbW1Events ≤ 9 ∧ (0 : Int) ≤ 9 ∧
    (computeActive (hbRun hbW1 hbW1Events) 9).totalUpTime
      + (computeActive (hbRun hbW1 hbW1Events) 9).totalDownTime = 9 - 0 :=
  ⟨by decide, by decide, by decide, by decide, by decide,
    C1_amended_reevaluate_total_time 100 0 0 9 false hbW1 hbW1Events
      (by decide) (by decide) (by decide) (by decide) (by decide)⟩

theorem updateTimes_genesisFloor (h : HbState) (c : Int) (p : Bool)
    (hg : h.genesisTime ≤ h.lastUptimeDowntime) :
    (updateTimes h c p).genesisTime ≤ (updateTimes h c p).lastUptimeDowntime := by
  simp only [updateTimes]
  split
  · exact hg
  · next hcond =>
    rw [updateUpAndDownTime_lastUptimeDowntime, updateUpAndDownTime_genesisTime,
      updateMaxInactiveTimeDuration_genesisTime]
    omega

theorem hbStep_genesisFloor (h : HbState) (e : HbEvent)
    (hg : h.genesisTime ≤ h.lastUptimeDowntime) :
    (hbStep h e).genesisTime ≤ (hbStep h e).lastUptimeDowntime := by
  cases e with
  | heartbeat t cs rs v n =>
    simp only [hbStep, heartbeatReceived, updateFields]
    exact updateTimes_genesisFloor { h with isActive := true } t
      (h.isActive && computeValidDuration t h) hg
  | reevaluate t =>
    simp only [hbStep, computeActive]
    exact updateTimes_genesisFloor
      { h with isActive := h.isActive && computeValidDuration t h } t
      (h.isActive && computeValidDuration t h) hg

@[simp] theorem hbStep_genesisTime (h : HbState) (e : HbEvent) :
    (hbStep h e).genesisTime = h.genesisTime := by
  cases e with
  | heartbeat t cs rs v n =>
    simp only [hbStep, heartbeatReceived, updateFields]
    rw [updateTimes_genesisTime]
  | reevaluate t =>
    simp only [hbStep, computeActive]
    rw [updateTimes_genesisTime]

theorem hbRun_genesisFloor : ∀ (es : List HbEvent) (h : HbState),
    h.genesisTime ≤ h.lastUptimeDowntime →
    (hbRun h es).genesisTime ≤ (hbRun h es).lastUptimeDowntime
  | [], h, hg => hg
  | e :: es, h, hg => hbRun_genesisFloor es (hbStep h e) (hbStep_genesisFloor h e hg)

theorem hbRun_genesisTime : ∀ (es : List HbEvent) (h : HbState),
    (hbRun h es).genesisTime = h.genesisTime
  | [], _ => rfl
  | e :: es, h => (hbRun_genesisTime es (hbStep h e)).trans (hbStep_genesisTime h e)

/-- Claim C9 as frozen is false: immediately after construction with a clock
reading before genesis (genesis 10, construction clock 0), the record has
`lastUptimeDowntime = 0 < 10 = genesisTime`; the clamp only happens lazily on
the next settlement. -/
theorem C9_counterexample :
    ((newHeartbeatMessageInfo 100 false 10 0).map (fun h =>
        decide (h.genesisTime ≤ h.lastUptimeDowntime))) = some false := by decide

/-- Claim C9 (amended): provided the clock at construction reads at least
genesis, every reachable state of the record (after any sequence of
`HeartbeatReceived` / `reevaluate` calls with arbitrary clock readings,
including the state immediately after construction) satisfies
`lastUptimeDowntime >= genesisTime`. -/
theorem C9_amended_lastUptimeDowntime_floor (maxDur t0 g : Int) (isVal : Bool)
    (h0 : HbState) (es : List HbEvent)
    (hc : newHeartbeatMessageInfo maxDur isVal g t0 = some h0)
    (ht0 : g ≤ t0) :
    g ≤ (hbRun h0 es).lastUptimeDowntime := by
  simp only [newHeartbeatMessageInfo] at hc
  split at hc
  · exact absurd hc (by simp)
  · rw [Option.some_inj] at hc
    subst hc
    have hfloor := hbRun_genesisFloor es
      { maxDurationPeerUnresponsive := maxDur, maxInactiveTime := 0, isActive := false,
        receivedShardID := 0, computedShardID := 0, timeStamp := g,
        lastUptimeDowntime := t0, totalUpTime := 0, totalDownTime := 0,
        versionNumber := "", nodeDisplayName := "", isValidator := isVal,
        genesisTime := g } ht0
    rw [hbRun_genesisTime] at hfloor
    exact hfloor

theorem C9_amended_witness :
    newHeartbeatMessageInfo 100 false 10 12 = some
      { maxDurationPeerUnresponsive := 100, maxInactiveTime := 0, isActive := false,
        receivedShardID := 0, computedShardID := 0, timeStamp := 10,
        lastUptimeDowntime := 12, totalUpTime := 0, totalDownTime := 0,
        versionNumber := "", nodeDisplayName := "", isValidator := false,
        genesisTime := 10 } ∧ (10 : Int) ≤ 12 ∧
    (10 : Int) ≤ (hbRun
      { maxDurationPeerUnresponsive := 100, maxInactiveTime := 0, isActive := false,
        receivedShardID := 0, computedShardID := 0, timeStamp := 10,
        lastUptimeDowntime := 12, totalUpTime := 0, totalDownTime := 0,
        versionNumber := "", nodeDisplayName := "", isValidator := false,
        genesisTime := 10 } [HbEvent.reevaluate 5]).lastUptimeDowntime :=
  ⟨by decide, by decide,
    C9_amended_lastUptimeDowntime_floor 100 12 10 false _ [HbEvent.reevaluate 5]
      (by decide) (by decide)⟩

end Heartbeat
namespace Esdt

@[simp] theorem addReturnMessage_storage (st : EEIState) (m : String) :
    (addReturnMessage st m).storage = st.storage := rfl

@[simp] theorem doTransfer_storage (st : EEIState) (d s : Bytes) (v : Int)
    (i : String) (g : Nat) : (doTransfer st d s v i g).storage = st.storage := rfl

@[simp] theorem finish_storage (st : EEIState) (b : Bytes) :
    (finish st b).storage = st.storage := rfl

@[simp] theorem sendGlobalSettingToAll_storage (st : EEIState) (s p : Bytes) :
    (sendGlobalSettingToAll st s p).storage = st.storage := rfl

theorem useGas_storage {st : EEIState} {cost : Nat} {st1 : EEIState}
    (h : useGas st cost = some st1) : st1.storage = st.storage := by
  unfold useGas at h
  split at h
  · rw [Option.some_inj] at h
    subst h
    rfl
  · exact absurd h (by simp)

theorem useGas_eq_some {st : EEIState} {cost : Nat} (h : cost ≤ st.gasRemaining) :
    useGas st cost = some { st with gasRemaining := st.gasRemaining - cost } := by
  unfold useGas
  rw [if_pos h]

theorem storeGet_storeSet_self (s : Storage) (k : Bytes) (v : StoredValue) :
    storeGet (storeSet s k v) k = some v := by
  show (if k = k then some v else storeGet s k) = some v
  rw [if_pos rfl]

theorem storeGet_storeSet_ne (s : Storage) (k j : Bytes) (v : StoredValue)
    (h : k ≠ j) : storeGet (storeSet s k v) j = storeGet s j := by
  show (if k = j then some v else storeGet s j) = storeGet s j
  rw [if_neg h]

theorem storeLookup_congr {s1 s2 : Storage} {k : Bytes}
    (h : storeGet s1 k = storeGet s2 k) : storeLookup s1 k = storeLookup s2 k := by
  unfold storeLookup
  rw [h]

theorem addToIssuedTokens_storeGet_ne (st : EEIState) (tok k : Bytes)
    (hk : k ≠ allIssuedTokensKey) :
    storeGet (addToIssuedTokens st tok).storage k = storeGet st.storage k := by
  unfold addToIssuedTokens
  cases storeLookup st.storage allIssuedTokensKey <;>
    exact storeGet_storeSet_ne _ _ _ _ (Ne.symm hk)

/-- Claim C10: when no configuration record is stored (e.g. `init` never ran),
`getESDTConfig` returns the built-in default configuration (constructor owner
address, constructor base issuing cost, token-name length bounds 10 and 20)
rather than an error, so config-loading operations such as `issue` proceed
against these defaults. -/
theorem C10_default_config (e : EsdtContract) (s : Storage)
    (h : storeLookup s configKeyBytes = none) :
    getESDTConfig e s = .ok
      { OwnerAddress := e.ownerAddress, BaseIssuingCost := e.baseIssuingCost,
        MinTokenNameLength := 10, MaxTokenNameLength := 20 } := by
  unfold getESDTConfig
  rw [h]
  rfl

end Esdt
namespace Esdt

@[simp] theorem upgradeProperties_nil (t : ESDTData) :
    upgradeProperties t [] = .ok t := rfl

theorem issueToken_ok (e : EsdtContract) (owner : Bytes) (st : EEIState)
    (name sb : Bytes)
    (h2 : 0 < bytesToNat sb)
    (h8 : storeLookup st.storage name = none)
    (h9 : isTokenNameHumanReadable name = true)
    (h10 : name ≠ allIssuedTokensKey) :
    (issueToken e owner [name, sb] st).2 = none ∧
    storeLookup (issueToken e owner [name, sb] st).1.storage name = some (.token
      { OwnerAddress := owner, TokenName := name,
        MintedValue := (bytesToNat sb : Int), BurntValue := 0, IsPaused := false,
        Upgradable := true, Burnable := false, Mintable := false, CanPause := false,
        CanFreeze := false, CanWipe := false, CanChangeOwner := false }) := by
  have hg0 : [name, sb].getD 0 ([] : Bytes) = name := rfl
  have hg1 : [name, sb].getD 1 ([] : Bytes) = sb := rfl
  have hdrop : List.drop 2 [name, sb] = ([] : List Bytes) := rfl
  unfold issueToken
  rw [hg0, hg1, hdrop]
  rw [if_neg (by omega : ¬ ((bytesToNat sb : Int) ≤ 0))]
  rw [h8]
  rw [if_neg (by simp : ¬ ((none : Option StoredValue).isSome = true))]
  rw [h9]
  rw [if_neg (by decide : ¬ ((! true) = true))]
  simp only [upgradeProperties_nil]
  constructor
  · trivial
  · rw [storeLookup_congr (addToIssuedTokens_storeGet_ne _ _ _ h10)]
    simp only [doTransfer_storage, saveToken]
    unfold storeLookup
    rw [storeGet_storeSet_self]
    simp [storedBytes, tokenBytes]

end Esdt
namespace Esdt

/-- Claim C2 (amended): issuing with a token identifier of valid length,
initial supply 1000, no optional flag arguments and attached value equal to
the configured base issuing cost returns Ok and persists a token record owned
by the caller with minted supply 1000, burnt supply 0 and the default
capability flags (burnable, mintable, pausable, freezable, wipeable and
ownerTransferable false; upgradable true). -/
theorem C2_amended_issue_ok (e : EsdtContract) (args : ContractCallInput)
    (st : EEIState) (name sb : Bytes) (esdtConfig : ESDTConfig)
    (h1 : args.arguments = [name, sb])
    (h2 : bytesToNat sb = 1000)
    (h3 : e.gasCost.esdtIssue ≤ st.gasRemaining)
    (h4 : getESDTConfig e st.storage = .ok esdtConfig)
    (h5 : esdtConfig.MinTokenNameLength ≤ name.length)
    (h6 : name.length ≤ esdtConfig.MaxTokenNameLength)
    (h7 : args.callValue = esdtConfig.BaseIssuingCost)
    (h8 : storeLookup st.storage name = none)
    (h9 : isTokenNameHumanReadable name = true)
    (h10 : name ≠ allIssuedTokensKey) :
    (issue e args st).2 = ReturnCode.ok ∧
    storeLookup (issue e args st).1.storage name = some (.token
      { OwnerAddress := args.callerAddr, TokenName := name, MintedValue := 1000,
        BurntValue := 0, IsPaused := false, Upgradable := true, Burnable := false,
        Mintable := false, CanPause := false, CanFreeze := false, CanWipe := false,
        CanChangeOwner := false }) := by
  have hg := useGas_eq_some h3
  unfold issue
  rw [h1]
  rw [if_neg (by simp : ¬ (([name, sb] : List Bytes).length < 2))]
  rw [hg]
  have hit := issueToken_ok e args.callerAddr
    { st with gasRemaining := st.gasRemaining - e.gasCost.esdtIssue } name sb
    (by omega) h8 h9 h10
  have hc1 : ¬ (name.length < esdtConfig.MinTokenNameLength ∨
      name.length > esdtConfig.MaxTokenNameLength) := by omega
  simp only [h4]
  rw [show (([name, sb] : List Bytes).getD 0 []) = name from rfl]
  rw [if_neg hc1, h7, if_neg (not_ne_iff.mpr rfl)]
  cases hres : issueToken e args.callerAddr [name, sb]
      { st with gasRemaining := st.gasRemaining - e.gasCost.esdtIssue } with
  | mk st2 o =>
    rw [hres] at hit
    obtain ⟨hit1, hit2⟩ := hit
    dsimp only at hit1
    subst hit1
    rw [h2] at hit2
    exact ⟨rfl, hit2⟩

end Esdt
namespace Esdt

/-- Claim C2 as frozen is false: the identifier "ABC123" has length 6, below
the minimum token-name length 10 enforced by the (default) configuration, so
`issue` rejects it with `FunctionWrongSignature` instead of returning Ok. -/
theorem C2_counterexample :
    (issue exContract exIssueShortArgs exEmptyState).2 = ReturnCode.functionWrongSignature ∧
    (issue exContract exIssueShortArgs exEmptyState).2 ≠ ReturnCode.ok := by
  constructor
  · rfl
  · decide

theorem C2_amended_witness :
    (issue exContract exIssueArgs exEmptyState).2 = ReturnCode.ok ∧
    storeLookup (issue exContract exIssueArgs exEmptyState).1.storage
      (strBytes "ALPHATOKENS") = some (.token
        { OwnerAddress := strBytes "callerAddr", TokenName := strBytes "ALPHATOKENS",
          MintedValue := 1000, BurntValue := 0, IsPaused := false, Upgradable := true,
          Burnable := false, Mintable := false, CanPause := false, CanFreeze := false,
          CanWipe := false, CanChangeOwner := false }) :=
  C2_amended_issue_ok exContract exIssueArgs exEmptyState
    (strBytes "ALPHATOKENS") [3, 232] exDefaultConfig rfl (by decide) (by decide)
    rfl (by decide) (by decide) rfl rfl (by decide) (by decide)

theorem C10_witness :
    storeLookup exEmptyState.storage configKeyBytes = none ∧
    getESDTConfig exContract exEmptyState.storage = .ok
      { OwnerAddress := exContract.ownerAddress,
        BaseIssuingCost := exContract.baseIssuingCost,
        MinTokenNameLength := 10, MaxTokenNameLength := 20 } :=
  ⟨rfl, C10_default_config exContract exEmptyState.storage rfl⟩

end Esdt
namespace Esdt

theorem basicOwnershipChecks_notOwner (e : EsdtContract) (args : ContractCallInput)
    (st : EEIState) (token : ESDTData)
    (h2 : args.callValue = 0)
    (h3 : e.gasCost.esdtOperations ≤ st.gasRemaining)
    (h4 : getExistingToken st.storage (args.arguments.getD 0 []) = .ok token)
    (h5 : token.OwnerAddress ≠ args.callerAddr) :
    basicOwnershipChecks e args st =
      (addReturnMessage { st with gasRemaining := st.gasRemaining - e.gasCost.esdtOperations }
        "can be called by owner only", none, .userError) := by
  unfold basicOwnershipChecks
  rw [h2, if_neg (not_ne_iff.mpr rfl)]
  rw [useGas_eq_some h3]
  simp only [h4]
  rw [if_pos h5]

/-- Claim C3 as frozen is false: `togglePause` routes through
`basicOwnershipChecks`, which compares `CallerAddr` against the stored
`OwnerAddress`.  A `pause` call on an existing token with `CanPause` set and
a non-redundant transition fails with `UserError` "can be called by owner
only" when the caller is not the owner, and the identical call succeeds when
the caller is the owner. -/
theorem C3_counterexample :
    (togglePause exContract exPauseBadArgs builtInFunctionESDTPause exPauseState).2
      = ReturnCode.userError ∧
    (togglePause exContract exPauseBadArgs builtInFunctionESDTPause exPauseState).1.returnMessages
      = ["can be called by owner only"] ∧
    (togglePause exContract exPauseOwnArgs builtInFunctionESDTPause exPauseState).2
      = ReturnCode.ok := by
  refine ⟨rfl, rfl, rfl⟩

/-- Claim C3 (amended): `pause`/`unPause` perform the same owner-equality
check as the other mutating operations: with an existing token whose owner
differs from the caller, `togglePause` returns `UserError` without touching
storage (before any capability or redundancy validation), and `mint`,
`toggleFreeze`, `wipe`, `transferOwnership` and `esdtControlChanges`
likewise return `UserError`. -/
theorem C3_amended_owner_checks (e : EsdtContract) (bifP bifF : String)
    (argsP args2 : ContractCallInput) (st : EEIState) (token token2 : ESDTData)
    (hA1 : argsP.arguments.length = 1)
    (hA2 : argsP.callValue = 0)
    (hA3 : e.gasCost.esdtOperations ≤ st.gasRemaining)
    (hA4 : getExistingToken st.storage (argsP.arguments.getD 0 []) = .ok token)
    (hA5 : token.OwnerAddress ≠ argsP.callerAddr)
    (hB1 : args2.arguments.length = 2)
    (hB2 : args2.callValue = 0)
    (hB4 : getExistingToken st.storage (args2.arguments.getD 0 []) = .ok token2)
    (hB5 : token2.OwnerAddress ≠ args2.callerAddr) :
    ((togglePause e argsP bifP st).2 = ReturnCode.userError ∧
      (togglePause e argsP bifP st).1.storage = st.storage) ∧
    (mint e args2 st).2 = ReturnCode.userError ∧
    (toggleFreeze e args2 bifF st).2 = ReturnCode.userError ∧
    (wipe e args2 st).2 = ReturnCode.userError ∧
    (transferOwnership e args2 st).2 = ReturnCode.userError ∧
    (esdtControlChanges e args2 st).2 = ReturnCode.userError := by
  have hbP := basicOwnershipChecks_notOwner e argsP st token hA2 hA3 hA4 hA5
  have hb2 := basicOwnershipChecks_notOwner e args2 st token2 hB2 hA3 hB4 hB5
  refine ⟨⟨?_, ?_⟩, ?_, ?_, ?_, ?_, ?_⟩
  · unfold togglePause
    rw [hA1, if_neg (not_ne_iff.mpr rfl), hbP]
  · unfold togglePause
    rw [hA1, if_neg (not_ne_iff.mpr rfl), hbP]
    rfl
  · unfold mint
    rw [hB1, if_neg (by omega), hb2]
  · unfold toggleFreeze
    rw [hB1, if_neg (not_ne_iff.mpr rfl), hb2]
  · unfold wipe
    rw [hB1, if_neg (not_ne_iff.mpr rfl), hb2]
  · unfold transferOwnership
    rw [hB1, if_neg (not_ne_iff.mpr rfl), hb2]
  · unfold esdtControlChanges
    rw [hB1, if_neg (by omega), hb2]

end Esdt
namespace Esdt

theorem C3_amended_witness :
    getExistingToken exPauseState.storage (strBytes "PAUSETOKENX") = .ok exPauseToken ∧
    exPauseToken.OwnerAddress ≠ exPauseBadArgs.callerAddr ∧
    ((togglePause exContract exPauseBadArgs builtInFunctionESDTPause exPauseState).2
        = ReturnCode.userError ∧
      (togglePause exContract exPauseBadArgs builtInFunctionESDTPause exPauseState).1.storage
        = exPauseState.storage) ∧
    (mint exContract exTwoArgBadOwner exPauseState).2 = ReturnCode.userError ∧
    (toggleFreeze exContract exTwoArgBadOwner builtInFunctionESDTFreeze exPauseState).2
      = ReturnCode.userError ∧
    (wipe exContract exTwoArgBadOwner exPauseState).2 = ReturnCode.userError ∧
    (transferOwnership exContract exTwoArgBadOwner exPauseState).2 = ReturnCode.userError ∧
    (esdtControlChanges exContract exTwoArgBadOwner exPauseState).2 = ReturnCode.userError :=
  ⟨rfl, by decide,
    C3_amended_owner_checks exContract builtInFunctionESDTPause builtInFunctionESDTFreeze
      exPauseBadArgs exTwoArgBadOwner exPauseState exPauseToken exPauseToken
      rfl rfl (by decide) rfl (by decide) rfl rfl rfl (by decide)⟩

/-- Claim C5: in `burn`, the increased `BurntValue` is persisted before the
gas deduction; when every validation passes but the deduction of
`GasProvided` fails, the call returns `OutOfGas` and the persisted increase
is not rolled back. -/
theorem C5_burn_saves_before_gas (e : EsdtContract) (args : ContractCallInput)
    (st : EEIState) (tn vb : Bytes) (token : ESDTData)
    (h1 : args.arguments = [tn, vb])
    (h2 : args.callValue = 0)
    (h3 : 0 < bytesToNat vb)
    (h4 : getExistingToken st.storage tn = .ok token)
    (h5 : token.Burnable = true)
    (h6 : token.TokenName = tn)
    (h7 : st.gasRemaining < args.gasProvided) :
    (burn e args st).2 = ReturnCode.outOfGas ∧
    storeLookup (burn e args st).1.storage tn = some (.token
      { token with BurntValue := token.BurntValue + (bytesToNat vb : Int) }) := by
  unfold burn
  rw [h1]
  rw [show (([tn, vb] : List Bytes).length) = 2 from rfl]
  rw [if_neg (not_ne_iff.mpr rfl), h2, if_neg (not_ne_iff.mpr rfl)]
  rw [show (([tn, vb] : List Bytes).getD 1 []) = vb from rfl]
  rw [show (([tn, vb] : List Bytes).getD 0 []) = tn from rfl]
  rw [if_neg (by omega : ¬ ((bytesToNat vb : Int) ≤ 0))]
  simp only [h4]
  rw [if_neg (by simp [h5] : ¬ ((! token.Burnable) = true))]
  have hng : useGas (saveToken st { token with BurntValue := token.BurntValue + (bytesToNat vb : Int) })
      args.gasProvided = none := by
    unfold useGas
    rw [if_neg (by
      show ¬ (args.gasProvided ≤ (saveToken st _).gasRemaining)
      show ¬ (args.gasProvided ≤ st.gasRemaining)
      omega)]
  rw [hng]
  constructor
  · rfl
  · simp only [addReturnMessage_storage, saveToken]
    rw [show ESDTData.TokenName { token with BurntValue := token.BurntValue + (bytesToNat vb : Int) } = tn from h6]
    unfold storeLookup
    simp only [storeGet_storeSet_self]
    rw [if_neg (by simp [storedBytes, tokenBytes])]

end Esdt
namespace Esdt

theorem C5_witness :
    (burn exContract exBurnArgs exBurnState).2 = ReturnCode.outOfGas ∧
    storeLookup (burn exContract exBurnArgs exBurnState).1.storage (strBytes "BURNTOKENXX")
      = some (.token
        { OwnerAddress := strBytes "ownerAddr1", TokenName := strBytes "BURNTOKENXX",
          MintedValue := 1000, BurntValue := 17, IsPaused := false, Upgradable := true,
          Burnable := true, Mintable := false, CanPause := false, CanFreeze := false,
          CanWipe := false, CanChangeOwner := false }) :=
  C5_burn_saves_before_gas exContract exBurnArgs exBurnState
    (strBytes "BURNTOKENXX") [7] exBurnToken rfl rfl (by decide) rfl rfl rfl (by decide)

end Esdt
namespace Esdt

theorem basicOwnershipChecks_storage (e : EsdtContract) (args : ContractCallInput)
    (st : EEIState) : (basicOwnershipChecks e args st).1.storage = st.storage := by
  unfold basicOwnershipChecks
  split
  · rfl
  · split
    · rfl
    · next st1 heq =>
      have h1 := useGas_storage heq
      split
      · exact h1
      · split
        · exact h1
        · exact h1

theorem issueToken_error_storage (e : EsdtContract) (owner : Bytes)
    (arguments : List Bytes) (st : EEIState) (st2 : EEIState) (err : VmErr)
    (h : issueToken e owner arguments st = (st2, some err)) :
    st2.storage = st.storage := by
  simp only [issueToken] at h
  split at h
  · injection h with hA hB; rw [← hA]
  · split at h
    · injection h with hA hB; rw [← hA]
    · split at h
      · injection h with hA hB; rw [← hA]
      · split at h
        · injection h with hA hB; rw [← hA]
        · injection h with hA hB; exact absurd hB (by simp)

end Esdt
namespace Esdt

theorem issue_userError_storage (e : EsdtContract) (args : ContractCallInput)
    (st st' : EEIState) (h : issue e args st = (st', ReturnCode.userError)) :
    st'.storage = st.storage := by
  simp only [issue] at h
  split at h
  · injection h with hA hB; exact absurd hB (by decide)
  · split at h
    · injection h with hA hB; exact absurd hB (by decide)
    · next st1 heq =>
      have hst1 := useGas_storage heq
      split at h
      · injection h with hA hB; rw [← hA]; exact hst1
      · split at h
        · injection h with hA hB; exact absurd hB (by decide)
        · split at h
          · injection h with hA hB; exact absurd hB (by decide)
          · split at h
            · next st2 err heq2 =>
              injection h with hA hB
              rw [← hA]
              exact (issueToken_error_storage e args.callerAddr args.arguments st1 st2 err heq2).trans hst1
            · injection h with hA hB; exact absurd hB (by decide)

theorem issueProtected_userError_storage (e : EsdtContract) (args : ContractCallInput)
    (st st' : EEIState) (h : issueProtected e args st = (st', ReturnCode.userError)) :
    st'.storage = st.storage := by
  simp only [issueProtected] at h
  split at h
  · injection h with hA hB; rw [← hA]; rfl
  · split at h
    · injection h with hA hB; exact absurd hB (by decide)
    · split at h
      · injection h with hA hB; exact absurd hB (by decide)
      · split at h
        · injection h with hA hB; exact absurd hB (by decide)
        · next st1 heq =>
          have hst1 := useGas_storage heq
          split at h
          · injection h with hA hB; rw [← hA]; exact hst1
          · split at h
            · injection h with hA hB; exact absurd hB (by decide)
            · split at h
              · next st2 err heq2 =>
                injection h with hA hB
                rw [← hA]
                exact (issueToken_error_storage e (args.arguments.getD 0 [])
                  (args.arguments.drop 1) st1 st2 err heq2).trans hst1
              · injection h with hA hB; exact absurd hB (by decide)

theorem burn_userError_storage (e : EsdtContract) (args : ContractCallInput)
    (st st' : EEIState) (h : burn e args st = (st', ReturnCode.userError)) :
    st'.storage = st.storage := by
  simp only [burn] at h
  split at h
  · injection h with hA hB; exact absurd hB (by decide)
  · split at h
    · injection h with hA hB; exact absurd hB (by decide)
    · split at h
      · injection h with hA hB; rw [← hA]; rfl
      · split at h
        · injection h with hA hB; rw [← hA]; rfl
        · split at h
          · injection h with hA hB; rw [← hA]; rfl
          · split at h
            · injection h with hA hB; exact absurd hB (by decide)
            · injection h with hA hB; exact absurd hB (by decide)

theorem claim_userError_storage (e : EsdtContract) (args : ContractCallInput)
    (st st' : EEIState) (h : claim e args st = (st', ReturnCode.userError)) :
    st'.storage = st.storage := by
  simp only [claim] at h
  split at h
  · injection h with hA hB; rw [← hA]; rfl
  · split at h
    · injection h with hA hB; rw [← hA]; rfl
    · split at h
      · injection h with hA hB; exact absurd hB (by decide)
      · next st1 heq =>
        split at h
        · injection h with hA hB; rw [← hA]; exact (useGas_storage heq : st1.storage = st.storage)
        · injection h with hA hB; exact absurd hB (by decide)

theorem configChange_userError_storage (e : EsdtContract) (args : ContractCallInput)
    (st st' : EEIState) (h : configChange e args st = (st', ReturnCode.userError)) :
    st'.storage = st.storage := by
  simp only [configChange] at h
  split at h
  · injection h with hA hB; rw [← hA]; rfl
  · split at h
    · injection h with hA hB; rw [← hA]; rfl
    · split at h
      · injection h with hA hB; exact absurd hB (by decide)
      · next st1 heq =>
        have hst1 := useGas_storage heq
        split at h
        · injection h with hA hB; rw [← hA]; exact hst1
        · split at h
          · injection h with hA hB; rw [← hA]; exact hst1
          · split at h
            · injection h with hA hB; rw [← hA]; exact hst1
            · split at h
              · injection h with hA hB; rw [← hA]; exact hst1
              · injection h with hA hB; exact absurd hB (by decide)

theorem getAllESDTTokens_userError_storage (e : EsdtContract) (args : ContractCallInput)
    (st st' : EEIState) (h : getAllESDTTokens e args st = (st', ReturnCode.userError)) :
    st'.storage = st.storage := by
  simp only [getAllESDTTokens] at h
  split at h
  · injection h with hA hB; rw [← hA]; rfl
  · split at h
    · injection h with hA hB; rw [← hA]; rfl
    · split at h
      · injection h with hA hB; exact absurd hB (by decide)
      · next st1 heq =>
        split at h
        · injection h with hA hB; rw [← hA]; exact (useGas_storage heq : st1.storage = st.storage)
        · injection h with hA hB; exact absurd hB (by decide)

theorem getTokenProperties_userError_storage (e : EsdtContract) (args : ContractCallInput)
    (st st' : EEIState) (h : getTokenProperties e args st = (st', ReturnCode.userError)) :
    st'.storage = st.storage := by
  simp only [getTokenProperties] at h
  split at h
  · injection h with hA hB; rw [← hA]; rfl
  · split at h
    · injection h with hA hB; rw [← hA]; rfl
    · split at h
      · injection h with hA hB; exact absurd hB (by decide)
      · next st1 heq =>
        split at h
        · injection h with hA hB; rw [← hA]; exact (useGas_storage heq : st1.storage = st.storage)
        · injection h with hA hB; exact absurd hB (by decide)

end Esdt
namespace Esdt

theorem toggleFreeze_userError_storage (e : EsdtContract) (args : ContractCallInput)
    (bFunc : String) (st st' : EEIState)
    (h : toggleFreeze e args bFunc st = (st', ReturnCode.userError)) :
    st'.storage = st.storage := by
  have hb := basicOwnershipChecks_storage e args st
  simp only [toggleFreeze] at h
  split at h
  · injection h with hA hB; exact absurd hB (by decide)
  · split at h
    · next st1 token heq =>
      rw [heq] at hb
      split at h
      · injection h with hA hB; rw [← hA]; exact hb
      · injection h with hA hB; exact absurd hB (by decide)
    · next st1 x rc heq =>
      rw [heq] at hb
      injection h with hA hB
      rw [← hA]; exact hb

theorem wipe_userError_storage (e : EsdtContract) (args : ContractCallInput)
    (st st' : EEIState) (h : wipe e args st = (st', ReturnCode.userError)) :
    st'.storage = st.storage := by
  have hb := basicOwnershipChecks_storage e args st
  simp only [wipe] at h
  split at h
  · injection h with hA hB; exact absurd hB (by decide)
  · split at h
    · next st1 token heq =>
      rw [heq] at hb
      split at h
      · injection h with hA hB; rw [← hA]; exact hb
      · split at h
        · injection h with hA hB; rw [← hA]; exact hb
        · injection h with hA hB; exact absurd hB (by decide)
    · next st1 x rc heq =>
      rw [heq] at hb
      injection h with hA hB
      rw [← hA]; exact hb

theorem togglePause_userError_storage (e : EsdtContract) (args : ContractCallInput)
    (bFunc : String) (st st' : EEIState)
    (h : togglePause e args bFunc st = (st', ReturnCode.userError)) :
    st'.storage = st.storage := by
  have hb := basicOwnershipChecks_storage e args st
  simp only [togglePause] at h
  split at h
  · injection h with hA hB; exact absurd hB (by decide)
  · split at h
    · next st1 token heq =>
      rw [heq] at hb
      split at h
      · injection h with hA hB; rw [← hA]; exact hb
      · split at h
        · injection h with hA hB; rw [← hA]; exact hb
        · split at h
          · injection h with hA hB; rw [← hA]; exact hb
          · injection h with hA hB; exact absurd hB (by decide)
    · next st1 x rc heq =>
      rw [heq] at hb
      injection h with hA hB
      rw [← hA]; exact hb

theorem transferOwnership_userError_storage (e : EsdtContract) (args : ContractCallInput)
    (st st' : EEIState) (h : transferOwnership e args st = (st', ReturnCode.userError)) :
    st'.storage = st.storage := by
  have hb := basicOwnershipChecks_storage e args st
  simp only [transferOwnership] at h
  split at h
  · injection h with hA hB; exact absurd hB (by decide)
  · split at h
    · next st1 token heq =>
      rw [heq] at hb
      split at h
      · injection h with hA hB; rw [← hA]; exact hb
      · split at h
        · injection h with hA hB; rw [← hA]; exact hb
        · injection h with hA hB; exact absurd hB (by decide)
    · next st1 x rc heq =>
      rw [heq] at hb
      injection h with hA hB
      rw [← hA]; exact hb

theorem esdtControlChanges_userError_storage (e : EsdtContract) (args : ContractCallInput)
    (st st' : EEIState) (h : esdtControlChanges e args st = (st', ReturnCode.userError)) :
    st'.storage = st.storage := by
  have hb := basicOwnershipChecks_storage e args st
  simp only [esdtControlChanges] at h
  split at h
  · injection h with hA hB; exact absurd hB (by decide)
  · split at h
    · next st1 token heq =>
      rw [heq] at hb
      split at h
      · injection h with hA hB; rw [← hA]; exact hb
      · split at h
        · injection h with hA hB; rw [← hA]; exact hb
        · injection h with hA hB; exact absurd hB (by decide)
    · next st1 x rc heq =>
      rw [heq] at hb
      injection h with hA hB
      rw [← hA]; exact hb

theorem mint_userError_storage (e : EsdtContract) (args : ContractCallInput)
    (st st' : EEIState) (h : mint e args st = (st', ReturnCode.userError)) :
    st'.storage = st.storage ∨
      (args.arguments.length = 3 ∧
        (args.arguments.getD 2 []).length ≠ args.callerAddr.length) := by
  have hb := basicOwnershipChecks_storage e args st
  simp only [mint] at h
  split at h
  · injection h with hA hB; exact absurd hB (by decide)
  · split at h
    · next st1 token heq =>
      rw [heq] at hb
      split at h
      · injection h with hA hB; rw [← hA]; exact Or.inl hb
      · split at h
        · injection h with hA hB; rw [← hA]; exact Or.inl hb
        · split at h
          · next hcond => exact Or.inr hcond
          · injection h with hA hB; exact absurd hB (by decide)
    · next st1 x rc heq =>
      rw [heq] at hb
      injection h with hA hB
      rw [← hA]; exact Or.inl hb

end Esdt
namespace Esdt

/-- Claim C4 (amended): whenever `execute` returns `UserError`, contract
storage is unchanged — except for `mint` calls whose third (destination)
argument has an invalid length, which return `UserError` only after the
token with the increased `MintedValue` has been persisted. -/
theorem C4_amended_userError_no_mutation (e : EsdtContract) (enabled : Bool)
    (args : ContractCallInput) (st : EEIState)
    (h : (execute e enabled args st).2 = ReturnCode.userError) :
    (execute e enabled args st).1.storage = st.storage ∨
      (args.function = "mint" ∧ args.arguments.length = 3 ∧
        (args.arguments.getD 2 []).length ≠ args.callerAddr.length) := by
  cases hp : execute e enabled args st with
  | mk st' rc =>
    rw [hp] at h
    dsimp only at h
    subst h
    unfold execute at hp
    by_cases hf0 : args.function = scDeployInitFunctionName
    · rw [if_pos hf0] at hp
      simp only [init] at hp
      injection hp with hA hB; exact absurd hB (by decide)
    rw [if_neg hf0] at hp
    by_cases hEn : (! enabled) = true
    · rw [if_pos hEn] at hp
      injection hp with hA hB; rw [← hA]; exact Or.inl rfl
    rw [if_neg hEn] at hp
    by_cases hf1 : args.function = "issue"
    · rw [if_pos hf1] at hp
      exact Or.inl (issue_userError_storage e args st st' hp)
    rw [if_neg hf1] at hp
    by_cases hf2 : args.function = "issueProtected"
    · rw [if_pos hf2] at hp
      exact Or.inl (issueProtected_userError_storage e args st st' hp)
    rw [if_neg hf2] at hp
    by_cases hf3 : args.function = builtInFunctionESDTBurn
    · rw [if_pos hf3] at hp
      exact Or.inl (burn_userError_storage e args st st' hp)
    rw [if_neg hf3] at hp
    by_cases hf4 : args.function = "mint"
    · rw [if_pos hf4] at hp
      rcases mint_userError_storage e args st st' hp with hl | hr
      · exact Or.inl hl
      · exact Or.inr ⟨hf4, hr⟩
    rw [if_neg hf4] at hp
    by_cases hf5 : args.function = "freeze"
    · rw [if_pos hf5] at hp
      exact Or.inl (toggleFreeze_userError_storage e args _ st st' hp)
    rw [if_neg hf5] at hp
    by_cases hf6 : args.function = "unFreeze"
    · rw [if_pos hf6] at hp
      exact Or.inl (toggleFreeze_userError_storage e args _ st st' hp)
    rw [if_neg hf6] at hp
    by_cases hf7 : args.function = "wipe"
    · rw [if_pos hf7] at hp
      exact Or.inl (wipe_userError_storage e args st st' hp)
    rw [if_neg hf7] at hp
    by_cases hf8 : args.function = "pause"
    · rw [if_pos hf8] at hp
      exact Or.inl (togglePause_userError_storage e args _ st st' hp)
    rw [if_neg hf8] at hp
    by_cases hf9 : args.function = "unPause"
    · rw [if_pos hf9] at hp
      exact Or.inl (togglePause_userError_storage e args _ st st' hp)
    rw [if_neg hf9] at hp
    by_cases hf10 : args.function = "claim"
    · rw [if_pos hf10] at hp
      exact Or.inl (claim_userError_storage e args st st' hp)
    rw [if_neg hf10] at hp
    by_cases hf11 : args.function = "configChange"
    · rw [if_pos hf11] at hp
      exact Or.inl (configChange_userError_storage e args st st' hp)
    rw [if_neg hf11] at hp
    by_cases hf12 : args.function = "esdtControlChanges"
    · rw [if_pos hf12] at hp
      exact Or.inl (esdtControlChanges_userError_storage e args st st' hp)
    rw [if_neg hf12] at hp
    by_cases hf13 : args.function = "transferOwnership"
    · rw [if_pos hf13] at hp
      exact Or.inl (transferOwnership_userError_storage e args st st' hp)
    rw [if_neg hf13] at hp
    by_cases hf14 : args.function = "getAllESDTTokens"
    · rw [if_pos hf14] at hp
      exact Or.inl (getAllESDTTokens_userError_storage e args st st' hp)
    rw [if_neg hf14] at hp
    by_cases hf15 : args.function = "getTokenProperties"
    · rw [if_pos hf15] at hp
      exact Or.inl (getTokenProperties_userError_storage e args st st' hp)
    rw [if_neg hf15] at hp
    injection hp with hA hB
    exact absurd hB (by decide)

end Esdt
namespace Esdt

/-- Claim C4 as frozen is false: a `mint` call that passes the ownership and
mintability checks but carries a third (destination) argument of invalid
length returns `UserError`, yet the token record with the increased
`MintedValue` (1000 + 50 = 1050) is already persisted and remains visible. -/
theorem C4_counterexample :
    (execute exContract true exMintBadDestArgs exMintState).2 = ReturnCode.userError ∧
    (execute exContract true exMintBadDestArgs exMintState).1.storage ≠ exMintState.storage ∧
    storeLookup (execute exContract true exMintBadDestArgs exMintState).1.storage
      (strBytes "MINTTOKENXX") = some (.token
        { OwnerAddress := strBytes "ownerAddr1", TokenName := strBytes "MINTTOKENXX",
          MintedValue := 1050, BurntValue := 0, IsPaused := false, Upgradable := true,
          Burnable := false, Mintable := true, CanPause := false, CanFreeze := false,
          CanWipe := false, CanChangeOwner := false }) := by
  refine ⟨rfl, by decide, rfl⟩

theorem C4_amended_witness :
    (execute exContract true exMintBadDestArgs exMintState).2 = ReturnCode.userError ∧
    ((execute exContract true exMintBadDestArgs exMintState).1.storage = exMintState.storage ∨
      (exMintBadDestArgs.function = "mint" ∧ exMintBadDestArgs.arguments.length = 3 ∧
        (exMintBadDestArgs.arguments.getD 2 []).length ≠ exMintBadDestArgs.callerAddr.length)) :=
  ⟨rfl, C4_amended_userError_no_mutation exContract true exMintBadDestArgs exMintState rfl⟩

end Esdt
